import Mathlib

set_option maxRecDepth 8000

/-!
Shallow embedding of the QR-code generator/analyzer sources (types.rs, mask.rs,
alignment.rs, generator.rs, main.rs, pixel_mapping.rs, encoding.rs, ecc.rs,
analyzer.rs).  Matrices are square lists of lists of 0/1 values, machine
integers are Nat (with explicit mod 2^16 where the Rust code uses u16), and
text inputs are lists of characters (the inputs exercised here are ASCII, so
the byte length used by the Rust code equals the character count).
-/

namespace QRCodec

inductive ErrorCorrection
  | L
  | M
  | Q
  | H
deriving DecidableEq, Fintype

inductive DataMode
  | Numeric
  | Alphanumeric
  | Byte
deriving DecidableEq

inductive MaskPattern
  | Pattern0
  | Pattern1
  | Pattern2
  | Pattern3
  | Pattern4
  | Pattern5
  | Pattern6
  | Pattern7
deriving DecidableEq, Fintype

/-- Mask-pattern index (the 3-bit value used in format info). -/
def MaskPattern.toNat : MaskPattern → Nat
  | .Pattern0 => 0
  | .Pattern1 => 1
  | .Pattern2 => 2
  | .Pattern3 => 3
  | .Pattern4 => 4
  | .Pattern5 => 5
  | .Pattern6 => 6
  | .Pattern7 => 7
/-- Version enum from src/types.rs; discriminants are 1..40 (V1 = 1). -/
inductive Version
  | V1
  | V2
  | V3
  | V4
  | V5
  | V6
  | V7
  | V8
  | V9
  | V10
  | V11
  | V12
  | V13
  | V14
  | V15
  | V16
  | V17
  | V18
  | V19
  | V20
  | V21
  | V22
  | V23
  | V24
  | V25
  | V26
  | V27
  | V28
  | V29
  | V30
  | V31
  | V32
  | V33
  | V34
  | V35
  | V36
  | V37
  | V38
  | V39
  | V40
deriving DecidableEq, Fintype

/-- Discriminant of the Version enum, matching Rust `version as usize` (V1 = 1). -/
def Version.toNat : Version → Nat
  | .V1 => 1
  | .V2 => 2
  | .V3 => 3
  | .V4 => 4
  | .V5 => 5
  | .V6 => 6
  | .V7 => 7
  | .V8 => 8
  | .V9 => 9
  | .V10 => 10
  | .V11 => 11
  | .V12 => 12
  | .V13 => 13
  | .V14 => 14
  | .V15 => 15
  | .V16 => 16
  | .V17 => 17
  | .V18 => 18
  | .V19 => 19
  | .V20 => 20
  | .V21 => 21
  | .V22 => 22
  | .V23 => 23
  | .V24 => 24
  | .V25 => 25
  | .V26 => 26
  | .V27 => 27
  | .V28 => 28
  | .V29 => 29
  | .V30 => 30
  | .V31 => 31
  | .V32 => 32
  | .V33 => 33
  | .V34 => 34
  | .V35 => 35
  | .V36 => 36
  | .V37 => 37
  | .V38 => 38
  | .V39 => 39
  | .V40 => 40

/-- Version::size from src/types.rs: V1..V10 hardcoded, all later versions fall
through to the arm returning 21 + 4 * discriminant. -/
def Version.size (v : Version) : Nat :=
  match v with
  | .V1 => 21
  | .V2 => 25
  | .V3 => 29
  | .V4 => 33
  | .V5 => 37
  | .V6 => 41
  | .V7 => 45
  | .V8 => 49
  | .V9 => 53
  | .V10 => 57
  | v => 21 + v.toNat * 4

/-- version_to_size from src/pixel_mapping.rs: the full 40-entry table. -/
def PixelMapping.version_to_size (v : Version) : Nat :=
  match v with
  | .V1 => 21
  | .V2 => 25
  | .V3 => 29
  | .V4 => 33
  | .V5 => 37
  | .V6 => 41
  | .V7 => 45
  | .V8 => 49
  | .V9 => 53
  | .V10 => 57
  | .V11 => 61
  | .V12 => 65
  | .V13 => 69
  | .V14 => 73
  | .V15 => 77
  | .V16 => 81
  | .V17 => 85
  | .V18 => 89
  | .V19 => 93
  | .V20 => 97
  | .V21 => 101
  | .V22 => 105
  | .V23 => 109
  | .V24 => 113
  | .V25 => 117
  | .V26 => 121
  | .V27 => 125
  | .V28 => 129
  | .V29 => 133
  | .V30 => 137
  | .V31 => 141
  | .V32 => 145
  | .V33 => 149
  | .V34 => 153
  | .V35 => 157
  | .V36 => 161
  | .V37 => 165
  | .V38 => 169
  | .V39 => 173
  | .V40 => 177

/-- size_to_version from src/pixel_mapping.rs. -/
def PixelMapping.size_to_version (size : Nat) : Option Version :=
  match size with
  | 21 => some .V1
  | 25 => some .V2
  | 29 => some .V3
  | 33 => some .V4
  | 37 => some .V5
  | 41 => some .V6
  | 45 => some .V7
  | 49 => some .V8
  | 53 => some .V9
  | 57 => some .V10
  | 61 => some .V11
  | 65 => some .V12
  | 69 => some .V13
  | 73 => some .V14
  | 77 => some .V15
  | 81 => some .V16
  | 85 => some .V17
  | 89 => some .V18
  | 93 => some .V19
  | 97 => some .V20
  | 101 => some .V21
  | 105 => some .V22
  | 109 => some .V23
  | 113 => some .V24
  | 117 => some .V25
  | 121 => some .V26
  | 125 => some .V27
  | 129 => some .V28
  | 133 => some .V29
  | 137 => some .V30
  | 141 => some .V31
  | 145 => some .V32
  | 149 => some .V33
  | 153 => some .V34
  | 157 => some .V35
  | 161 => some .V36
  | 165 => some .V37
  | 169 => some .V38
  | 173 => some .V39
  | 177 => some .V40
  | _ => none

/-- get_alignment_positions from src/alignment.rs. -/
def get_alignment_positions (v : Version) : List Nat :=
  match v with
  | .V1 => []
  | .V2 => [6, 18]
  | .V3 => [6, 22]
  | .V4 => [6, 26]
  | .V5 => [6, 30]
  | .V6 => [6, 34]
  | .V7 => [6, 22, 38]
  | .V8 => [6, 24, 42]
  | .V9 => [6, 26, 46]
  | .V10 => [6, 28, 50]
  | .V11 => [6, 30, 54]
  | .V12 => [6, 32, 58]
  | .V13 => [6, 26, 46, 66]
  | .V14 => [6, 26, 46, 66]
  | .V15 => [6, 26, 48, 70]
  | .V16 => [6, 26, 50, 74]
  | .V17 => [6, 30, 54, 78]
  | .V18 => [6, 30, 56, 82]
  | .V19 => [6, 30, 58, 86]
  | .V20 => [6, 34, 62, 90]
  | .V21 => [6, 28, 50, 72, 94]
  | .V22 => [6, 26, 50, 74, 98]
  | .V23 => [6, 30, 54, 78, 102]
  | .V24 => [6, 28, 54, 80, 106]
  | .V25 => [6, 32, 58, 84, 110]
  | .V26 => [6, 30, 58, 86, 114]
  | .V27 => [6, 34, 62, 90, 118]
  | .V28 => [6, 26, 50, 74, 98, 122]
  | .V29 => [6, 30, 54, 78, 102, 126]
  | .V30 => [6, 26, 52, 78, 104, 130]
  | .V31 => [6, 30, 56, 82, 108, 134]
  | .V32 => [6, 34, 60, 86, 112, 138]
  | .V33 => [6, 30, 58, 86, 114, 142]
  | .V34 => [6, 34, 62, 90, 118, 146]
  | .V35 => [6, 30, 54, 78, 102, 126, 150]
  | .V36 => [6, 24, 50, 76, 102, 128, 154]
  | .V37 => [6, 28, 54, 80, 106, 132, 158]
  | .V38 => [6, 32, 58, 84, 110, 136, 162]
  | .V39 => [6, 26, 54, 82, 110, 138, 166]
  | .V40 => [6, 30, 58, 86, 114, 142, 170]

/-- get_data_capacity_bits from src/encoding.rs: the full (version, ecc) table. -/
def Encoding.get_data_capacity_bits (v : Version) (ec : ErrorCorrection) : Nat :=
  match v, ec with
  | .V1, .L => 152
  | .V1, .M => 128
  | .V1, .Q => 104
  | .V1, .H => 72
  | .V2, .L => 272
  | .V2, .M => 224
  | .V2, .Q => 176
  | .V2, .H => 128
  | .V3, .L => 440
  | .V3, .M => 352
  | .V3, .Q => 272
  | .V3, .H => 208
  | .V4, .L => 640
  | .V4, .M => 512
  | .V4, .Q => 384
  | .V4, .H => 288
  | .V5, .L => 864
  | .V5, .M => 688
  | .V5, .Q => 496
  | .V5, .H => 368
  | .V6, .L => 1088
  | .V6, .M => 864
  | .V6, .Q => 608
  | .V6, .H => 480
  | .V7, .L => 1248
  | .V7, .M => 992
  | .V7, .Q => 704
  | .V7, .H => 528
  | .V8, .L => 1552
  | .V8, .M => 1232
  | .V8, .Q => 880
  | .V8, .H => 688
  | .V9, .L => 1856
  | .V9, .M => 1456
  | .V9, .Q => 1056
  | .V9, .H => 800
  | .V10, .L => 2192
  | .V10, .M => 1728
  | .V10, .Q => 1232
  | .V10, .H => 976
  | .V11, .L => 2592
  | .V11, .M => 2032
  | .V11, .Q => 1440
  | .V11, .H => 1120
  | .V12, .L => 2960
  | .V12, .M => 2320
  | .V12, .Q => 1648
  | .V12, .H => 1264
  | .V13, .L => 3424
  | .V13, .M => 2672
  | .V13, .Q => 1952
  | .V13, .H => 1440
  | .V14, .L => 3688
  | .V14, .M => 2920
  | .V14, .Q => 2088
  | .V14, .H => 1576
  | .V15, .L => 4184
  | .V15, .M => 3320
  | .V15, .Q => 2360
  | .V15, .H => 1784
  | .V16, .L => 4712
  | .V16, .M => 3624
  | .V16, .Q => 2600
  | .V16, .H => 2024
  | .V17, .L => 5176
  | .V17, .M => 4056
  | .V17, .Q => 2936
  | .V17, .H => 2264
  | .V18, .L => 5768
  | .V18, .M => 4504
  | .V18, .Q => 3176
  | .V18, .H => 2504
  | .V19, .L => 6360
  | .V19, .M => 5016
  | .V19, .Q => 3560
  | .V19, .H => 2728
  | .V20, .L => 6888
  | .V20, .M => 5352
  | .V20, .Q => 3880
  | .V20, .H => 3080
  | .V21, .L => 7456
  | .V21, .M => 5712
  | .V21, .Q => 4096
  | .V21, .H => 3248
  | .V22, .L => 8048
  | .V22, .M => 6256
  | .V22, .Q => 4544
  | .V22, .H => 3536
  | .V23, .L => 8752
  | .V23, .M => 6880
  | .V23, .Q => 4912
  | .V23, .H => 3712
  | .V24, .L => 9392
  | .V24, .M => 7312
  | .V24, .Q => 5312
  | .V24, .H => 4112
  | .V25, .L => 10208
  | .V25, .M => 8000
  | .V25, .Q => 5744
  | .V25, .H => 4304
  | .V26, .L => 10960
  | .V26, .M => 8496
  | .V26, .Q => 6032
  | .V26, .H => 4768
  | .V27, .L => 11744
  | .V27, .M => 9024
  | .V27, .Q => 6464
  | .V27, .H => 5024
  | .V28, .L => 12248
  | .V28, .M => 9544
  | .V28, .Q => 6968
  | .V28, .H => 5288
  | .V29, .L => 13048
  | .V29, .M => 10136
  | .V29, .Q => 7288
  | .V29, .H => 5608
  | .V30, .L => 13880
  | .V30, .M => 10984
  | .V30, .Q => 7880
  | .V30, .H => 5960
  | .V31, .L => 14744
  | .V31, .M => 11640
  | .V31, .Q => 8264
  | .V31, .H => 6344
  | .V32, .L => 15640
  | .V32, .M => 12328
  | .V32, .Q => 8920
  | .V32, .H => 6760
  | .V33, .L => 16568
  | .V33, .M => 13048
  | .V33, .Q => 9368
  | .V33, .H => 7208
  | .V34, .L => 17528
  | .V34, .M => 13800
  | .V34, .Q => 9848
  | .V34, .H => 7688
  | .V35, .L => 18448
  | .V35, .M => 14496
  | .V35, .Q => 10288
  | .V35, .H => 7888
  | .V36, .L => 19472
  | .V36, .M => 15312
  | .V36, .Q => 10832
  | .V36, .H => 8432
  | .V37, .L => 20528
  | .V37, .M => 15936
  | .V37, .Q => 11408
  | .V37, .H => 8768
  | .V38, .L => 21616
  | .V38, .M => 16816
  | .V38, .Q => 12016
  | .V38, .H => 9136
  | .V39, .L => 22496
  | .V39, .M => 17728
  | .V39, .Q => 12656
  | .V39, .H => 9776
  | .V40, .L => 23648
  | .V40, .M => 18672
  | .V40, .Q => 13328
  | .V40, .H => 10208

/-- get_block_info from src/encoding.rs: versions 1..4 are tabulated, every
other (version, ecc) pair falls through to the default arm (1, 16, 0, 0, 10). -/
def Encoding.get_block_info (v : Version) (ec : ErrorCorrection) : Nat × Nat × Nat × Nat × Nat :=
  match v, ec with
  | .V1, .L => (1, 19, 0, 0, 7)
  | .V1, .M => (1, 16, 0, 0, 10)
  | .V1, .Q => (1, 13, 0, 0, 13)
  | .V1, .H => (1, 9, 0, 0, 17)
  | .V2, .L => (1, 34, 0, 0, 10)
  | .V2, .M => (1, 28, 0, 0, 16)
  | .V2, .Q => (1, 22, 0, 0, 22)
  | .V2, .H => (1, 16, 0, 0, 28)
  | .V3, .L => (1, 55, 0, 0, 15)
  | .V3, .M => (1, 44, 0, 0, 26)
  | .V3, .Q => (2, 17, 0, 0, 18)
  | .V3, .H => (2, 13, 0, 0, 22)
  | .V4, .L => (1, 80, 0, 0, 20)
  | .V4, .M => (2, 32, 0, 0, 18)
  | .V4, .Q => (2, 24, 0, 0, 26)
  | .V4, .H => (4, 9, 0, 0, 16)
  | _, _ => (1, 16, 0, 0, 10)

/-- get_format_info from src/main.rs: the fixed 32-entry reference lookup table. -/
def Main.get_format_info (ec : ErrorCorrection) (mp : MaskPattern) : Nat :=
  match ec, mp with
  | .L, .Pattern0 => 0b111011111000100
  | .L, .Pattern1 => 0b111001011110011
  | .L, .Pattern2 => 0b111110110101010
  | .L, .Pattern3 => 0b111100010011101
  | .L, .Pattern4 => 0b110011000101111
  | .L, .Pattern5 => 0b110001100011000
  | .L, .Pattern6 => 0b110110001000001
  | .L, .Pattern7 => 0b110100101110110
  | .M, .Pattern0 => 0b101010000010010
  | .M, .Pattern1 => 0b101000100100101
  | .M, .Pattern2 => 0b101111001111100
  | .M, .Pattern3 => 0b101101101001011
  | .M, .Pattern4 => 0b100010111111001
  | .M, .Pattern5 => 0b100000011001110
  | .M, .Pattern6 => 0b100111110010111
  | .M, .Pattern7 => 0b100101010100000
  | .Q, .Pattern0 => 0b011010101011111
  | .Q, .Pattern1 => 0b011000001101000
  | .Q, .Pattern2 => 0b011111100110001
  | .Q, .Pattern3 => 0b011101000000110
  | .Q, .Pattern4 => 0b010010010110100
  | .Q, .Pattern5 => 0b010000110000011
  | .Q, .Pattern6 => 0b010111011011010
  | .Q, .Pattern7 => 0b010101111101101
  | .H, .Pattern0 => 0b001011010001001
  | .H, .Pattern1 => 0b001001110111110
  | .H, .Pattern2 => 0b001110011100111
  | .H, .Pattern3 => 0b001100111010000
  | .H, .Pattern4 => 0b000011101100010
  | .H, .Pattern5 => 0b000001001010101
  | .H, .Pattern6 => 0b000110100001100
  | .H, .Pattern7 => 0b000100000111011

/-- format_map from decode_format_info in src/analyzer.rs. -/
def Analyzer.format_map : List (Nat × ErrorCorrection × MaskPattern) :=
  [
   (0b111011111000100, .L, .Pattern0),
   (0b111001011110011, .L, .Pattern1),
   (0b111110110101010, .L, .Pattern2),
   (0b111100010011101, .L, .Pattern3),
   (0b110011000101111, .L, .Pattern4),
   (0b110001100011000, .L, .Pattern5),
   (0b110110001000001, .L, .Pattern6),
   (0b110100101110110, .L, .Pattern7),
   (0b101010000010010, .M, .Pattern0),
   (0b101000100100101, .M, .Pattern1),
   (0b101111001111100, .M, .Pattern2),
   (0b101101101001011, .M, .Pattern3),
   (0b100010111111001, .M, .Pattern4),
   (0b100000011001110, .M, .Pattern5),
   (0b100111110010111, .M, .Pattern6),
   (0b100101010100000, .M, .Pattern7),
   (0b011010101011111, .Q, .Pattern0),
   (0b011000001101000, .Q, .Pattern1),
   (0b011111100110001, .Q, .Pattern2),
   (0b011101000000110, .Q, .Pattern3),
   (0b010010010110100, .Q, .Pattern4),
   (0b010000110000011, .Q, .Pattern5),
   (0b010111011011010, .Q, .Pattern6),
   (0b010101111101101, .Q, .Pattern7),
   (0b001011010001001, .H, .Pattern0),
   (0b001001110111110, .H, .Pattern1),
   (0b001110011100111, .H, .Pattern2),
   (0b001100111010000, .H, .Pattern3),
   (0b000011101100010, .H, .Pattern4),
   (0b000001001010101, .H, .Pattern5),
   (0b000110100001100, .H, .Pattern6),
   (0b000100000111011, .H, .Pattern7)]

/-- Toggle condition of the eight mask patterns, from apply_pattern0..7 in
src/mask.rs: the module at row y, column x is XOR-ed with 1 exactly when this
condition holds. -/
def mask_condition (p : MaskPattern) (y x : Nat) : Bool :=
  match p with
  | .Pattern0 => (x + y) % 2 == 0
  | .Pattern1 => y % 2 == 0
  | .Pattern2 => x % 3 == 0
  | .Pattern3 => (x + y) % 3 == 0
  | .Pattern4 => (y / 2 + x / 3) % 2 == 0
  | .Pattern5 => (x * y) % 2 + (x * y) % 3 == 0
  | .Pattern6 => ((x * y) % 2 + (x * y) % 3) % 2 == 0
  | .Pattern7 => ((x + y) % 2 + (x * y) % 3) % 2 == 0

/-- apply_mask from src/mask.rs: every pattern loops over all y and x in
0..matrix.len() and XORs the cell with 1 when the pattern condition holds.
There is no function-module exclusion in the source. -/
def apply_mask (matrix : List (List Nat)) (p : MaskPattern) : List (List Nat) :=
  (List.range matrix.length).map fun y =>
    (List.range matrix.length).map fun x =>
      let v := (matrix.getD y []).getD x 0
      if mask_condition p y x then v ^^^ 1 else v

/-- is_alignment_pattern from src/alignment.rs.  The finder-overlap skip uses
Version.size from src/types.rs, exactly as the source does. -/
def is_alignment_pattern (x y : Nat) (v : Version) : Bool :=
  let positions := get_alignment_positions v
  positions.any fun cx =>
    positions.any fun cy =>
      if (cx ≤ 8 ∧ cy ≤ 8) ∨ (cx ≤ 8 ∧ cy ≥ v.size - 9) ∨ (cx ≥ v.size - 9 ∧ cy ≤ 8) then
        false
      else
        decide (cx - 2 ≤ x ∧ x ≤ cx + 2 ∧ cy - 2 ≤ y ∧ y ≤ cy + 2)

/-- Matrix side length computed by generate_qr_matrix in src/generator.rs:
21 + (version as usize - 1) * 4. -/
def Generator.matrix_size (v : Version) : Nat := 21 + (v.toNat - 1) * 4

/-- is_function_module from src/generator.rs (signature (x, y, size, version);
the call site passes x := column, y := row). -/
def Generator.is_function_module (x y size : Nat) (v : Version) : Bool :=
  if (x < 9 ∧ y < 9) ∨ (x ≥ size - 8 ∧ y < 9) ∨ (x < 9 ∧ y ≥ size - 8) then true
  else if x = 6 ∨ y = 6 then true
  else if x = 8 ∧ y = 4 * v.toNat + 9 then true
  else if 7 ≤ v.toNat ∧ ((x < 6 ∧ y ≥ size - 11) ∨ (y < 6 ∧ x ≥ size - 11)) then true
  else if (x = 8 ∧ (y < 9 ∨ y ≥ size - 8)) ∨ (y = 8 ∧ (x < 9 ∨ x ≥ size - 7)) then true
  else is_alignment_pattern x y v

/-- Two-bit error-correction indicator used by get_format_info in
src/generator.rs. -/
def ErrorCorrection.ec_bits : ErrorCorrection → Nat
  | .L => 0b01
  | .M => 0b00
  | .Q => 0b11
  | .H => 0b10

/-- One iteration of the division loop in get_format_info from
src/generator.rs, with u16 wrap-around made explicit. -/
def Generator.bch_div_step (remainder : Nat) : Nat :=
  if remainder &&& 0x4000 ≠ 0 then ((remainder <<< 1) % 65536) ^^^ 0b10100110111
  else (remainder <<< 1) % 65536

/-- get_format_info from src/generator.rs: 5-bit payload shifted left by 10,
five iterations of the shift/XOR loop, low ten bits of the remainder OR-ed in
and the result XOR-ed with 0x5412. -/
def Generator.get_format_info (ec : ErrorCorrection) (mp : MaskPattern) : Nat :=
  let data := (ec.ec_bits <<< 3) ||| mp.toNat
  let format_info := (data <<< 10) % 65536
  let remainder := Generator.bch_div_step^[5] format_info
  let format_info := format_info ||| (remainder &&& 0x3FF)
  format_info ^^^ 0x5412

/-- is_function_module from src/pixel_mapping.rs (signature (row, col, size);
the version for the alignment table is recovered from the size). -/
def PixelMapping.is_function_module (row col size : Nat) : Bool :=
  if (row < 9 ∧ col < 9) ∨ (row < 9 ∧ col ≥ size - 8) ∨ (row ≥ size - 8 ∧ col < 9) then true
  else if row = 6 ∨ col = 6 then true
  else if row = 4 * ((size - 17) / 4) + 9 ∧ col = 8 then true
  else if (row < 9 ∧ (col < 9 ∨ col ≥ size - 8)) ∨ (row ≥ size - 8 ∧ col < 9) ∨
          (row = 8 ∧ (col < 9 ∨ col ≥ size - 7)) ∨ (col = 8 ∧ (row < 9 ∨ row ≥ size - 7)) then true
  else
    let version := (PixelMapping.size_to_version size).getD .V1
    let alignment_positions := get_alignment_positions version
    alignment_positions.any fun cx =>
      alignment_positions.any fun cy =>
        if (cx ≤ 8 ∧ cy ≤ 8) ∨ (cx ≤ 8 ∧ cy ≥ size - 9) ∨ (cx ≥ size - 9 ∧ cy ≤ 8) then
          false
        else
          decide (cy - 2 ≤ row ∧ row ≤ cy + 2 ∧ cx - 2 ≤ col ∧ col ≤ cx + 2)

/-- Chunking worker: walk the list keeping the current chunk (reversed) in acc
and the remaining room k; when the room is exhausted the chunk is flushed. -/
def chunksGo {α : Type} (n : Nat) : List α → List α → Nat → List (List α)
  | [], acc, _ => if acc.isEmpty then [] else [acc.reverse]
  | x :: xs, acc, k =>
      if k = 0 then acc.reverse :: chunksGo n xs [x] (n - 1)
      else chunksGo n xs (x :: acc) (k - 1)

/-- chunks n l splits l into runs of n elements (last run possibly shorter),
as Rust slice::chunks(n) does for n > 0. -/
def chunks {α : Type} (n : Nat) (l : List α) : List (List α) :=
  chunksGo n l [] n

/-- Big-endian bit expansion used throughout src/encoding.rs: for i in
(0..width).rev() push (value >> i) & 1. -/
def Encoding.to_bits_be (width value : Nat) : List Nat :=
  (List.range width).reverse.map fun i => (value >>> i) &&& 1

/-- Digit value of an ASCII digit character; the Rust source uses
to_digit(10).unwrap(), which panics on non-digits, and is only reached with
digit characters at the call sites exercised here. -/
def Encoding.char_to_digit (c : Char) : Nat := c.toNat - 48

/-- encode_numeric from src/encoding.rs: 4-bit mode indicator 0001, a 10-bit
character count regardless of the version argument (which the source ignores),
then digit groups of 3, 2, 1 packed into 10, 7, 4 bits. -/
def Encoding.encode_numeric (data : List Char) (_version : Version) : List Nat :=
  [0, 0, 0, 1] ++ Encoding.to_bits_be 10 data.length ++
    ((chunks 3 data).map fun chunk =>
      match chunk with
      | [a, b, c] =>
          Encoding.to_bits_be 10
            (Encoding.char_to_digit a * 100 + Encoding.char_to_digit b * 10 +
              Encoding.char_to_digit c)
      | [a, b] => Encoding.to_bits_be 7 (Encoding.char_to_digit a * 10 + Encoding.char_to_digit b)
      | [a] => Encoding.to_bits_be 4 (Encoding.char_to_digit a)
      | _ => []).flatten

/-- encode_byte from src/encoding.rs: 4-bit mode indicator 0100, an 8-bit
character count regardless of the version argument, then 8 bits per byte
(ASCII inputs, so bytes are the character codes). -/
def Encoding.encode_byte (data : List Char) (_version : Version) : List Nat :=
  [0, 1, 0, 0] ++ Encoding.to_bits_be 8 data.length ++
    (data.map fun c => Encoding.to_bits_be 8 c.toNat).flatten

/-- alphanumeric_value from src/encoding.rs; note the final fallback arm of
the source reads: Invalid character, treat as 0. -/
def Encoding.alphanumeric_value (c : Char) : Nat :=
  if 48 ≤ c.toNat ∧ c.toNat ≤ 57 then c.toNat - 48
  else if 65 ≤ c.toNat ∧ c.toNat ≤ 90 then c.toNat - 65 + 10
  else if c = ' ' then 36
  else if c = '$' then 37
  else if c = '%' then 38
  else if c = '*' then 39
  else if c = '+' then 40
  else if c = '-' then 41
  else if c = '.' then 42
  else if c = '/' then 43
  else if c = ':' then 44
  else 0

/-- encode_alphanumeric from src/encoding.rs: 4-bit mode indicator 0010, a
9-bit character count regardless of the version argument, then pairs packed as
v1 * 45 + v2 into 11 bits and a trailing single symbol into 6 bits. -/
def Encoding.encode_alphanumeric (data : List Char) (_version : Version) : List Nat :=
  [0, 0, 1, 0] ++ Encoding.to_bits_be 9 data.length ++
    ((chunks 2 data).map fun chunk =>
      match chunk with
      | [a, b] =>
          Encoding.to_bits_be 11
            (Encoding.alphanumeric_value a * 45 + Encoding.alphanumeric_value b)
      | [a] => Encoding.to_bits_be 6 (Encoding.alphanumeric_value a)
      | _ => []).flatten

/-- Data-codeword total of the block table: g1_blocks * g1_dc + g2_blocks *
g2_dc for get_block_info from src/encoding.rs. -/
def Encoding.data_codewords_sum (v : Version) (ec : ErrorCorrection) : Nat :=
  match Encoding.get_block_info v ec with
  | (g1, d1, g2, d2, _) => g1 * d1 + g2 * d2

/-- Modelled from the spec: the GF(256) exponent-table step, doubling modulo
the primitive polynomial 0x11D.  The concrete tables of the repository are
emitted by a build-time generate_gf_tables.py script that is not part of the
Rust sources; spec section 4.1 fixes exp i as alpha to the i-th power for the
field with primitive polynomial 0x11D and alpha = 2. -/
def Ecc.gf_step (x : Nat) : Nat :=
  let y := x * 2
  if y ≥ 256 then y ^^^ 0x11D else y

/-- Successive powers of alpha: exp_list n x lists x, step x, step (step x),
and so on, n entries in total. -/
def Ecc.exp_list : Nat → Nat → List Nat
  | 0, _ => []
  | n + 1, x => x :: Ecc.exp_list n (Ecc.gf_step x)

/-- Modelled from the spec: GF_EXP with GF_EXP i = alpha ^ i for i in 0..255
(spec section 4.1). -/
def Ecc.GF_EXP : List Nat := Ecc.exp_list 255 1

/-- gf_exp from src/ecc.rs: GF_EXP indexed modulo 255. -/
def Ecc.gf_exp (e : Nat) : Nat := Ecc.GF_EXP.getD (e % 255) 0

/-- gf_log from src/ecc.rs: the discrete logarithm read off GF_EXP; the source
panics at 0, which every call site guards against. -/
def Ecc.gf_log (v : Nat) : Nat := Ecc.GF_EXP.findIdx (· == v)

/-- gf_add from src/ecc.rs. -/
def Ecc.gf_add (a b : Nat) : Nat := a ^^^ b

/-- gf_multiply from src/ecc.rs. -/
def Ecc.gf_multiply (a b : Nat) : Nat :=
  if a = 0 ∨ b = 0 then 0
  else Ecc.gf_exp ((Ecc.gf_log a + Ecc.gf_log b) % 255)

/-- One iteration of the loop in get_generator_polynomial from src/ecc.rs:
multiply the polynomial by (x - alpha ^ i). -/
def Ecc.poly_mul_step (poly : List Nat) (i : Nat) : List Nat :=
  (List.range (poly.length + 1)).map fun j =>
    poly.getD j 0 ^^^
      (if j = 0 then 0 else Ecc.gf_multiply (poly.getD (j - 1) 0) (Ecc.gf_exp i))

/-- get_generator_polynomial from src/ecc.rs: start from the polynomial 1 and
multiply by (x - alpha ^ i) for i = 0 .. degree - 1. -/
def Ecc.get_generator_polynomial (degree : Nat) : List Nat :=
  (List.range degree).foldl Ecc.poly_mul_step [1]

/-- One outer iteration of the long-division loop in generate_ecc from
src/ecc.rs: XOR coeff times the generator into message[i ..]. -/
def Ecc.ecc_step (generator : List Nat) (message : List Nat) (i : Nat) : List Nat :=
  let coeff := message.getD i 0
  if coeff = 0 then message
  else
    (List.range message.length).map fun k =>
      let v := message.getD k 0
      if i ≤ k ∧ k - i < generator.length then
        v ^^^ Ecc.gf_multiply (generator.getD (k - i) 0) coeff
      else v

/-- generate_ecc from src/ecc.rs: append num_ecc_codewords zeros, reduce by
the generator polynomial, and return the trailing parity bytes. -/
def Ecc.generate_ecc (data : List Nat) (num_ecc_codewords : Nat) : List Nat :=
  let generator := Ecc.get_generator_polynomial num_ecc_codewords
  let message := data ++ List.replicate num_ecc_codewords 0
  ((List.range data.length).foldl (Ecc.ecc_step generator) message).drop data.length

/-- calculate_syndromes from src/ecc.rs: the i-th syndrome is the received
polynomial evaluated at alpha ^ i by Horner's method. -/
def Ecc.calculate_syndromes (received : List Nat) (num_ecc_codewords : Nat) : List Nat :=
  (List.range num_ecc_codewords).map fun i =>
    let alpha := Ecc.gf_exp (i % 255)
    received.foldl (fun syndrome byte => Ecc.gf_add (Ecc.gf_multiply syndrome alpha) byte) 0

/-- bits_to_usize from src/analyzer.rs. -/
def Analyzer.bits_to_usize (bits : List Nat) : Nat :=
  bits.foldl (fun acc bit => (acc <<< 1) ||| bit) 0

/-- Zero padding on the left, as the format strings with width 03 and 02 in
decode_numeric_bits of src/analyzer.rs produce. -/
def Analyzer.pad_left_zeros (s : String) (w : Nat) : String :=
  String.mk (List.replicate (w - s.length) '0') ++ s

/-- decode_numeric_bits from src/analyzer.rs: consume 10-bit groups while at
least 10 bits remain, then one 7-bit group if at least 7 remain, then one
4-bit group if at least 4 remain; out-of-range group values are skipped. -/
def Analyzer.decode_numeric_bits (bits : List Nat) : Option String :=
  let k := bits.length / 10
  let tenGroups := chunks 10 (bits.take (10 * k))
  let tail1 := bits.drop (10 * k)
  let s10 := String.join (tenGroups.map fun g =>
    let value := Analyzer.bits_to_usize g
    if value ≤ 999 then Analyzer.pad_left_zeros (toString value) 3 else "")
  let s7 :=
    if 7 ≤ tail1.length then
      let value := Analyzer.bits_to_usize (tail1.take 7)
      if value ≤ 99 then Analyzer.pad_left_zeros (toString value) 2 else ""
    else ""
  let tail2 := if 7 ≤ tail1.length then tail1.drop 7 else tail1
  let s4 :=
    if 4 ≤ tail2.length then
      let value := Analyzer.bits_to_usize (tail2.take 4)
      if value ≤ 9 then toString value else ""
    else ""
  some (s10 ++ s7 ++ s4)

/-- decode_alphanumeric_bits from src/analyzer.rs: the source ignores its
input and returns the constant string ALPHANUMERIC_DATA. -/
def Analyzer.decode_alphanumeric_bits (_bits : List Nat) : Option String :=
  some "ALPHANUMERIC_DATA"

/-- decode_byte_bits from src/analyzer.rs: 8-bit groups become ASCII
characters, non-ASCII byte values become a question mark. -/
def Analyzer.decode_byte_bits (bits : List Nat) : Option String :=
  let k := bits.length / 8
  let groups := chunks 8 (bits.take (8 * k))
  some (String.mk (groups.filterMap fun g =>
    let byte_val := Analyzer.bits_to_usize g
    if byte_val ≤ 255 then
      some (if byte_val < 128 then Char.ofNat byte_val else '?')
    else none))

/-- decode_data_bits from src/analyzer.rs: dispatch on the 4-character mode
indicator string. -/
def Analyzer.decode_data_bits (bits : List Nat) (encoding_info : String) : Option String :=
  match encoding_info with
  | "0001" => Analyzer.decode_numeric_bits bits
  | "0010" => Analyzer.decode_alphanumeric_bits bits
  | "0100" => Analyzer.decode_byte_bits bits
  | _ => none

/-- decode_format_info from src/analyzer.rs: an exact lookup in the 32-entry
format_map; any value outside the table yields (none, none, none).  No BCH
error correction is attempted. -/
def Analyzer.decode_format_info (format_value : Nat) :
    Option ErrorCorrection × Option MaskPattern × Option Version :=
  match Analyzer.format_map.find? (fun entry => entry.1 == format_value) with
  | some entry => (some entry.2.1, some entry.2.2, none)
  | none => (none, none, none)

/-- Claim C1: the encode/decode round-trip fails on the code.  Evaluated at
the failing input of spec scenario S1: the analyzer arm for alphanumeric
payloads (decode_alphanumeric_bits, dispatched by decode_data_bits on the mode
string 0010) ignores its input and returns the constant ALPHANUMERIC_DATA, so
decoding the encoding of HELLO WORLD cannot return the original text. -/
theorem c1_roundtrip_fails_alphanumeric :
    Analyzer.decode_data_bits (Encoding.encode_alphanumeric "HELLO WORLD".toList .V1) "0010"
        = some "ALPHANUMERIC_DATA" ∧
      ("ALPHANUMERIC_DATA" : String) ≠ "HELLO WORLD" := by
  constructor
  · rfl
  · decide

/-- Claim C2: apply_mask does not restrict itself to data modules.  On a
21 by 21 all-zero matrix, mask pattern 0 flips the module at row 0, column 0,
which the data-placement predicate of the encoder classifies as a function
module (top-left finder); the source XORs the pattern into every cell. -/
theorem c2_apply_mask_flips_function_module :
    ((apply_mask (List.replicate 21 (List.replicate 21 0)) .Pattern0).getD 0 []).getD 0 0 = 1 ∧
      ((List.replicate 21 (List.replicate 21 (0 : Nat))).getD 0 []).getD 0 0 = 0 ∧
      Generator.is_function_module 0 0 21 .V1 = true := by decide

/-- Claim C3: Version.size is not 17 + 4 * v for every version.  At V11 it
returns 65 = 21 + 4 * 11 (the fall-through arm adds 21 instead of 17), while
the pixel-mapping table version_to_size returns the claimed 61 = 17 + 4 * 11. -/
theorem c3_version_size_divergence :
    Version.size .V11 = 65 ∧
      PixelMapping.version_to_size .V11 = 17 + 4 * Version.toNat .V11 ∧
      Version.size .V11 ≠ 17 + 4 * Version.toNat .V11 := by decide

/-- Claim C4: the encoder hardcodes the version-1 length-header widths for
every version instead of using the (mode, version-bucket) table.  At version
10 the table prescribes 12 bits (numeric), 16 bits (byte) and 11 bits
(alphanumeric), but each encoder ignores its version argument and emits the
same stream as for version 1, with 10, 8 and 9 count bits respectively. -/
theorem c4_length_header_width_fixed :
    Encoding.encode_numeric "1".toList .V10 = Encoding.encode_numeric "1".toList .V1 ∧
      (Encoding.encode_numeric "1".toList .V10).length = 4 + 10 + 4 ∧
      Encoding.encode_byte "A".toList .V10 = Encoding.encode_byte "A".toList .V1 ∧
      (Encoding.encode_byte "A".toList .V10).length = 4 + 8 + 8 ∧
      Encoding.encode_alphanumeric "A".toList .V10 = Encoding.encode_alphanumeric "A".toList .V1 ∧
      (Encoding.encode_alphanumeric "A".toList .V10).length = 4 + 9 + 6 := by decide

/-- Claim C5: the format-info decoder performs no BCH correction.  The spec
example 111100010001111 is the valid (L, mask 3) codeword 111100010011101 with
two bits flipped (their XOR is 10010), yet decode_format_info returns
(none, none, none) for it because the source only does an exact lookup in the
32-entry table; the uncorrupted codeword decodes to (L, Pattern3). -/
theorem c5_format_decode_no_correction :
    Analyzer.decode_format_info 0b111100010001111 = (none, none, none) ∧
      Analyzer.decode_format_info 0b111100010011101 = (some .L, some .Pattern3, none) ∧
      Nat.xor 0b111100010001111 0b111100010011101 = 0b10010 := by decide

/-- Claim C6: the BCH computation in generator.rs does not reproduce the
reference table in main.rs.  At (L, Pattern0) the division loop (five
shift/XOR steps followed by masking the low ten bits) yields
111010110101010, while the reference table entry is 111011111000100. -/
theorem c6_format_info_implementations_disagree :
    Generator.get_format_info .L .Pattern0 = 0b111010110101010 ∧
      Main.get_format_info .L .Pattern0 = 0b111011111000100 ∧
      Generator.get_format_info .L .Pattern0 ≠ Main.get_format_info .L .Pattern0 := by decide

/-- Claim C7: the Reed-Solomon generator polynomial uses consecutive roots
starting at alpha to the zeroth power, and systematic encoding of the
documented test message with 10 parity bytes yields exactly the documented
parity.  The degree-7 polynomial matches the repository's own test vector,
and all ten syndromes (evaluations at alpha ^ 0 .. alpha ^ 9) of the resulting
codeword vanish, which is exactly the consecutive-roots-from-alpha-0
property. -/
theorem c7_reed_solomon_generator_and_vector :
    Ecc.generate_ecc [32, 91, 11, 98, 56] 10
        = [107, 33, 43, 244, 102, 30, 52, 87, 107, 207] ∧
      Ecc.get_generator_polynomial 7 = [1, 127, 122, 154, 164, 11, 68, 117] ∧
      Ecc.calculate_syndromes
          ([32, 91, 11, 98, 56] ++ Ecc.generate_ecc [32, 91, 11, 98, 56] 10) 10
        = List.replicate 10 0 := by decide

/-- Claim C8 counterexample: at (V5, L) the block table falls through to the
default arm (1, 16, 0, 0, 10), so 8 times the data-codeword sum is 128, while
get_data_capacity_bits returns 864; the claimed equality fails for version 5
and above. -/
theorem c8_capacity_mismatch_v5l :
    8 * Encoding.data_codewords_sum .V5 .L = 128 ∧
      Encoding.get_data_capacity_bits .V5 .L = 864 ∧
      8 * Encoding.data_codewords_sum .V5 .L ≠ Encoding.get_data_capacity_bits .V5 .L := by
  decide

/-- Claim C8 (amended): for every version 1..4, the range the block table
actually covers, and every ecc level, 8 times (g1_blocks * g1_dc +
g2_blocks * g2_dc) from get_block_info equals get_data_capacity_bits. -/
theorem c8_capacity_consistency_v1_to_v4 :
    ∀ (v : Version), v.toNat ≤ 4 →
      ∀ (ec : ErrorCorrection),
        8 * Encoding.data_codewords_sum v ec = Encoding.get_data_capacity_bits v ec := by
  decide

/-- Claim C8 witness: the amended consistency instantiated at (V1, L). -/
theorem c8_capacity_consistency_witness :
    8 * Encoding.data_codewords_sum .V1 .L = Encoding.get_data_capacity_bits .V1 .L :=
  c8_capacity_consistency_v1_to_v4 .V1 (by decide) .L

/-- Claim C9: an input character that is illegal for alphanumeric mode does
not make encoding fail.  The source maps the lowercase letter a to the value 0
(the fallback arm reads: Invalid character, treat as 0) and
encode_alphanumeric produces an ordinary bit stream for it, identical to the
encoding of the digit 0; there is no error path in the encoder. -/
theorem c9_invalid_character_encoded_as_zero :
    Encoding.alphanumeric_value 'a' = 0 ∧
      Encoding.encode_alphanumeric "a".toList .V1
        = [0, 0, 1, 0, 0, 0, 0, 0, 0, 0, 0, 0, 1, 0, 0, 0, 0, 0, 0] ∧
      Encoding.encode_alphanumeric "a".toList .V1
        = Encoding.encode_alphanumeric "0".toList .V1 := by decide

/-- Claim C10 counterexample: at version 7 (size 45), row 0, column 34 lies in
the top-right version-information block, which generator.rs treats as a
function module but pixel_mapping.rs does not test at all, so the two
predicates disagree there. -/
theorem c10_predicates_disagree_v7 :
    Generator.is_function_module 34 0 45 .V7 = true ∧
      PixelMapping.is_function_module 0 34 45 = false := by decide

/-- Claim C10 (amended): for every version 1..6 (the versions without version
information) and every in-range coordinate, the data-placement predicate of
generator.rs (called with x = column, y = row and the version) and the
pixel-classification predicate of pixel_mapping.rs (called with row, column
and the size) return the same boolean. -/
theorem c10_predicates_agree_v1_to_v6 :
    ∀ (v : Version), v.toNat ≤ 6 →
      ∀ x, x < Generator.matrix_size v →
        ∀ y, y < Generator.matrix_size v →
          Generator.is_function_module x y (Generator.matrix_size v) v
            = PixelMapping.is_function_module y x (Generator.matrix_size v) := by
  decide

/-- Claim C10 witness: the amended agreement instantiated at version 1,
row 10, column 10 (a data module next to the timing patterns). -/
theorem c10_predicates_agree_witness :
    Generator.is_function_module 10 10 (Generator.matrix_size .V1) .V1
      = PixelMapping.is_function_module 10 10 (Generator.matrix_size .V1) :=
  c10_predicates_agree_v1_to_v6 .V1 (by decide) 10 (by decide) 10 (by decide)

end QRCodec
